import Mathlib

/-!
Shallow embedding of the consent-gated ethical-scoring pipeline of the
`Hushh_Hackathon_Blanc` repository:

* `score_ethical_factors` embeds
  `src/hushh_mcp/operons/score_ethical_factors.py`;
* the five agent entry points embed
  `src/hushh_mcp/agents/ethical_consumption_agent/index.py`;
* the interactive values-capture loop embeds the loop shared by
  `EthicalConsumptionAgent.assess_ethical_values` and the operon
  `src/hushh_mcp/operons/assess_ethical_values.py`.

Python floats are embedded as `ℚ` (all constants of the source are decimal
literals, so all arithmetic of interest is exact); Python dicts that the code
only reads by key are embedded as association lists; the external
token-validation collaborator (`hushh_mcp.consent.token.validate_token`,
out of scope per the spec) is a parameter of the agent functions.
-/

namespace Hushh

/-- Tests whether `pat` is a prefix of `s` (character lists). -/
def charsStartWith : List Char → List Char → Bool
  | [], _ => true
  | _ :: _, [] => false
  | a :: as, b :: bs => a == b && charsStartWith as bs

/-- Tests whether `pat` occurs as a contiguous run inside `s` (character lists). -/
def charsContain (pat : List Char) : List Char → Bool
  | [] => pat.isEmpty
  | b :: bs => charsStartWith pat (b :: bs) || charsContain pat bs

/-- Python's `pat in s` substring test on strings. -/
def strContains (s pat : String) : Bool :=
  charsContain pat.toList s.toList

/-- Python's `str.lower()`, written via the character list (equivalent to
`String.toLower` on the ASCII data the source handles, and reducible by the
kernel). -/
def lc (s : String) : String := ⟨s.data.map Char.toLower⟩

/-- A Python dict whose keys are strings and whose values are rendered as the
text Python's `str()` would print for them (e.g. `"True"` for `True`).
Used for the `labor_practices` and `environmental_impact` sub-dicts, which the
source only consumes through `"<pattern>" in str(d).lower()`. -/
abbrev PyDict := List (String × String)

/-- Embeds `pat in str(d).lower()` for a flat dict `d`.  Python renders such a dict as
`{'key': value, ...}`; each search pattern used by the source consists only of
letters and spaces, and the inter-item separators (`': '`, `', '`, quotes,
braces) all contain a character no pattern contains, so a match can never span
two rendered items: the check is equivalent to a per-key / per-value substring
search. -/
def dictContains (d : PyDict) (pat : String) : Bool :=
  d.any fun kv => strContains (lc kv.1) pat || strContains (lc kv.2) pat

/-- The `supply_chain` sub-dict of `product_data`.  The source reads it only
via `.get` with the defaults recorded here, so an absent key and a key that is
present with its default value are indistinguishable. -/
structure SupplyChainInfo where
  transparency_score : ℚ := 5
  public_reporting : Bool := false
  tier_visibility : List String := []
deriving DecidableEq

/-- Embeds `product_data`.  The source reads it only via `.get` with the defaults
recorded here (`certifications` → `[]`, `origin` → `"unknown"`, the two
sub-dicts → `{}`, `supply_chain` → `{}`). -/
structure ProductData where
  certifications : List String := []
  origin : String := "unknown"
  labor_practices : PyDict := []
  environmental_impact : PyDict := []
  supply_chain : SupplyChainInfo := {}
deriving DecidableEq

/-- Embeds `"recyclable" in str(product_data).lower()`: the whole-dict rendering
contains the fixed top-level key names (none of which contains a search
pattern), numeric and boolean renderings (which contain no letters the
patterns use in sequence), and the string fields searched here.  As in
`dictContains`, no pattern can span two rendered items. -/
def productContains (p : ProductData) (pat : String) : Bool :=
  p.certifications.any (fun c => strContains (lc c) pat)
  || strContains (lc p.origin) pat
  || dictContains p.labor_practices pat
  || dictContains p.environmental_impact pat
  || p.supply_chain.tier_visibility.any (fun t => strContains (lc t) pat)

/-- Embeds `x in [c.lower() for c in certifications]`. -/
def hasCert (p : ProductData) (x : String) : Bool :=
  p.certifications.any fun c => lc c == x

/-- The five factor keys of the `scores` dict, in insertion order. -/
inductive Factor where
  | environmental
  | labor
  | supply_chain
  | transparency
  | certifications
deriving DecidableEq

def Factor.name : Factor → String
  | .environmental => "environmental"
  | .labor => "labor"
  | .supply_chain => "supply_chain"
  | .transparency => "transparency"
  | .certifications => "certifications"

/-- Gives the `scores.items()` iteration order. -/
def factorOrder : List Factor :=
  [.environmental, .labor, .supply_chain, .transparency, .certifications]

/-- Key lookup in the `scores` dict: `scores[name]`, `none` = `KeyError`. -/
def factorOfName (s : String) : Option Factor :=
  if s = "environmental" then some .environmental
  else if s = "labor" then some .labor
  else if s = "supply_chain" then some .supply_chain
  else if s = "transparency" then some .transparency
  else if s = "certifications" then some .certifications
  else none

/-- Embeds `factor.replace('_', ' ')` for the five factor names. -/
def Factor.display : Factor → String
  | .environmental => "environmental"
  | .labor => "labor"
  | .supply_chain => "supply chain"
  | .transparency => "transparency"
  | .certifications => "certifications"

/-- The five component scores (the `scores` dict), before rounding.
Each branch transcribes the corresponding bonus block of
`score_ethical_factors.py` lines 41-92. -/
def componentScore (p : ProductData) : Factor → ℚ
  | .environmental =>
      let s : ℚ := 5
      let s := s + (if hasCert p "organic" then 3/2 else 0)
      let s := s + (if dictContains p.environmental_impact "carbon neutral" then 1 else 0)
      let s := s + (if dictContains p.environmental_impact "renewable energy" then 1 else 0)
      let s := s + (if productContains p "recyclable" then 1/2 else 0)
      min s 10
  | .labor =>
      let s : ℚ := 5
      let s := s + (if hasCert p "fair trade" then 2 else 0)
      let s := s + (if dictContains p.labor_practices "living wage" then 3/2 else 0)
      let s := s + (if dictContains p.labor_practices "worker rights" then 1 else 0)
      let s := s + (if hasCert p "sa8000" then 1 else 0)
      min s 10
  | .supply_chain =>
      let s : ℚ := p.supply_chain.transparency_score
      let s := s + (if strContains (lc p.origin) "local" || strContains (lc p.origin) "domestic" then 3/2 else 0)
      let s := s + (if p.supply_chain.tier_visibility.length > 2 then 1 else 0)
      min s 10
  | .transparency =>
      let s : ℚ := 5
      let s := s + (if p.supply_chain.public_reporting then 3/2 else 0)
      let s := s + (if hasCert p "b-corp" then 2 else 0)
      let s := s + (if p.certifications.length > 2 then 1 else 0)
      min s 10
  | .certifications =>
      min ((p.certifications.length : ℚ) * (3/2)) 10

/-- The default weights dict of lines 22-29, in insertion order. -/
def defaultWeights : List (String × ℚ) :=
  [("environmental", 1/4), ("labor", 1/4), ("supply_chain", 1/5),
   ("transparency", 3/20), ("certifications", 3/20)]

/-- Embeds `sum(scores[factor] * weights[factor] for factor in weights.keys())`:
iterates over the keys of `weights`; an entry whose key is not one of the five
factor names raises `KeyError` (here `none`), aborting the call. -/
def weightedSum (p : ProductData) : List (String × ℚ) → Option ℚ
  | [] => some 0
  | kv :: rest =>
      match factorOfName kv.1 with
      | none => none
      | some f => (weightedSum p rest).map fun s => componentScore p f * kv.2 + s

/-- Embeds the `user_values` dict; only the three `*_importance` keys below are ever
read, via `.get(key, 3)`. -/
abbrev UserValues := List (String × Int)

/-- Embeds `user_values.get(k, 3)`. -/
def uvGet (uv : UserValues) (k : String) : Int :=
  (uv.lookup k).getD 3

/-- The user-preference multiplier of lines 98-104. -/
def userMultiplier (p : ProductData) (uv : UserValues) : ℚ :=
  let m : ℚ := 1
  let m := m + (if uvGet uv "environmental_importance" ≥ 4
                then (1/10) * (componentScore p .environmental / 10) else 0)
  let m := m + (if uvGet uv "labor_practices_importance" ≥ 4
                then (1/10) * (componentScore p .labor / 10) else 0)
  let m := m + (if uvGet uv "transparency_importance" ≥ 4
                then (1/10) * (componentScore p .transparency / 10) else 0)
  m

/-- Python's `round(q, 1)`.  (Python rounds ties on the underlying binary
float; no value arising in this development sits on an exact `.05` tie, so the
round-half-up convention used here agrees with the source on every input that
matters.) -/
def round1 (q : ℚ) : ℚ := (⌊q * 10 + 1/2⌋ : ℚ) / 10

/-- The explanation lists of lines 109-116, built by a single pass over
`scores.items()` in insertion order: a component `≥ 7.5` contributes a
strength, otherwise a component `≤ 4.0` contributes a concern. -/
def strengthsOf (p : ProductData) : List String :=
  (factorOrder.filter fun f => componentScore p f ≥ 15/2).map
    fun f => "Strong " ++ f.display ++ " practices"

def concernsOf (p : ProductData) : List String :=
  (factorOrder.filter fun f => ¬ componentScore p f ≥ 15/2 ∧ componentScore p f ≤ 4).map
    fun f => "Limited " ++ f.display ++ " information"

/-- The dict returned by `score_ethical_factors` (lines 118-126). -/
structure ScoreResult where
  overall_score : ℚ
  component_scores : List (String × ℚ)
  strengths : List String
  concerns : List String
  certifications_found : List String
  user_alignment : String
  scoring_methodology : String
deriving DecidableEq

/-- Embeds `score_ethical_factors(product_data, user_values, weights)`.
`w = none` is Python's `weights=None` (default weights); the result is `none`
exactly when the weighted sum raises `KeyError` on an unknown weights key. -/
def score_ethical_factors (p : ProductData) (uv : UserValues)
    (w : Option (List (String × ℚ))) : Option ScoreResult :=
  let weights := w.getD defaultWeights
  (weightedSum p weights).map fun overall =>
    let mult := userMultiplier p uv
    let final := min (overall * mult) 10
    { overall_score := round1 final
      component_scores := factorOrder.map fun f => (f.name, round1 (componentScore p f))
      strengths := strengthsOf p
      concerns := concernsOf p
      certifications_found := p.certifications
      user_alignment := if mult > 21/20 then "high" else "moderate"
      scoring_methodology := "weighted_multi_factor" }

/-! ## The agent (`ethical_consumption_agent/index.py`) -/

/-- The consent scopes the agent's `required_scopes` table maps to. -/
inductive ConsentScope where
  | custom_ethical_values
  | vault_read_email
  | vault_read_finance
  | agent_shopping_purchase
  | custom_supply_chain
deriving DecidableEq

/-- The decoded consent token as read by the agent (only `user_id` is
consulted). -/
structure DecodedToken where
  user_id : String
deriving DecidableEq

/-- The triple returned by `validate_token(token_str, expected_scope)`:
`(valid, reason, token)`, where `token` is `None` on failure. -/
structure ValidationOutcome where
  valid : Bool
  reason : String
  token : Option DecodedToken

/-- The external token-validation collaborator
(`hushh_mcp.consent.token.validate_token`, out of scope per the spec §6):
a function from the presented token text and the expected scope to a
`ValidationOutcome`.  The agent entry points are parameterised by it. -/
abbrev Validator := String → ConsentScope → ValidationOutcome

/-- A raised Python exception: its class name and its message. -/
structure PyError where
  etype : String
  msg : String
deriving DecidableEq

/-- The error kind a caller can catch by type: the exception class. -/
def errKindOf {α : Type} : Except PyError α → String
  | .error e => e.etype
  | .ok _ => "ok"

/-- The shared validation-plus-identity prologue of `assess_ethical_values`,
`analyze_purchase_history`, `search_ethical_products` and
`trace_supply_chain` (the same four lines repeated in each): validate the
token against the operation's scope, raise `PermissionError` with the
collaborator's reason on failure, then compare `token.user_id` with the
caller-supplied `user_id` and raise `PermissionError` on mismatch.
(`generate_report` does NOT use this prologue: it stops after the validity
check.)  If `validate` reported valid with a `None` token the Python line
`token.user_id` would raise `AttributeError`; that branch is kept. -/
def consentGate (validate : Validator) (scope : ConsentScope)
    (user_id token_str : String) : Except PyError DecodedToken :=
  let r := validate token_str scope
  if r.valid = false then
    .error ⟨"PermissionError", "Consent validation failed: " ++ r.reason⟩
  else
    match r.token with
    | none => .error ⟨"AttributeError", "NoneType object has no attribute user_id"⟩
    | some t =>
        if t.user_id ≠ user_id then
          .error ⟨"PermissionError", "Token user ID does not match provided user"⟩
        else
          .ok t

/-- One interactive response to a 1-5 prompt: `some n` when `int(response)`
succeeds with value `n`, `none` when it raises `ValueError`. -/
abbrev Response := Option Int

/-- The inner `while True` loop of the values assessment: consume responses
until one parses to an integer in `[1,5]`; return it and the remaining
responses.  `none` models the loop still waiting for input when the supplied
response list is exhausted (the Python loop never returns in that case). -/
def askOne : List Response → Option (Int × List Response)
  | [] => none
  | r :: rest =>
      match r with
      | some n => if 1 ≤ n ∧ n ≤ 5 then some (n, rest) else askOne rest
      | none => askOne rest

/-- The `EthicalValues` dataclass. -/
structure EthicalValues where
  environmental_importance : Int
  labor_practices_importance : Int
  local_sourcing_preference : Int
  animal_welfare_importance : Int
  transparency_importance : Int
deriving DecidableEq

/-- The outer `for question, key in questions` loop: capture the five
preference values in question order. -/
def captureValues (rs : List Response) : Option EthicalValues :=
  match askOne rs with
  | none => none
  | some (env, rs) =>
    match askOne rs with
    | none => none
    | some (lab, rs) =>
      match askOne rs with
      | none => none
      | some (loc, rs) =>
        match askOne rs with
        | none => none
        | some (ani, rs) =>
          match askOne rs with
          | none => none
          | some (tra, _) => some ⟨env, lab, loc, ani, tra⟩

/-- Embeds `EthicalConsumptionAgent._generate_values_summary`. -/
def generate_values_summary (v : EthicalValues) : String :=
  let priorities :=
    (if v.environmental_importance ≥ 4 then ["environmental sustainability"] else [])
    ++ (if v.labor_practices_importance ≥ 4 then ["fair labor practices"] else [])
    ++ (if v.local_sourcing_preference ≥ 4 then ["local sourcing"] else [])
    ++ (if v.animal_welfare_importance ≥ 4 then ["animal welfare"] else [])
    ++ (if v.transparency_importance ≥ 4 then ["supply chain transparency"] else [])
  if priorities ≠ [] then
    "Your top priorities: " ++ String.intercalate ", " priorities
  else
    "Balanced approach across all ethical factors"

/-- Result of `assess_ethical_values` (the encryption collaborator is out of
scope; `values` is the captured profile the source serialises and encrypts). -/
structure ValuesResult where
  status : String
  message : String
  values : EthicalValues
  summary : String
deriving DecidableEq

/-- Embeds `EthicalConsumptionAgent.assess_ethical_values(user_id, token_str)` with
the interactive responses supplied as a list.  The outer `Option` is `none`
when the capture loop is still blocked waiting for input; otherwise the call
returns (`.ok`) or raises (`.error`) as the source does. -/
def assess_ethical_values (validate : Validator) (user_id token_str : String)
    (rs : List Response) : Option (Except PyError ValuesResult) :=
  match consentGate validate .custom_ethical_values user_id token_str with
  | .error e => some (.error e)
  | .ok _ =>
      (captureValues rs).map fun vals =>
        .ok { status := "success"
              message := "Ethical values assessment completed"
              values := vals
              summary := generate_values_summary vals }

/-- Result of `analyze_purchase_history` (canned analysis payload and the
encryption collaborator abstracted away; `period` echoes the argument). -/
structure AnalysisResult where
  status : String
  period : String
deriving DecidableEq

/-- Embeds `EthicalConsumptionAgent.analyze_purchase_history(user_id, token_str, period)`. -/
def analyze_purchase_history (validate : Validator)
    (user_id token_str period : String) : Except PyError AnalysisResult :=
  match consentGate validate .vault_read_email user_id token_str with
  | .error e => .error e
  | .ok _ => .ok { status := "success", period := period }

/-- Result of `search_ethical_products` (canned recommendations abstracted;
`query` and `budget` echo the arguments). -/
structure SearchResult where
  status : String
  query : String
  budget : Option Int
deriving DecidableEq

/-- Embeds `EthicalConsumptionAgent.search_ethical_products(user_id, token_str, query, budget)`. -/
def search_ethical_products (validate : Validator)
    (user_id token_str query : String) (budget : Option Int) :
    Except PyError SearchResult :=
  match consentGate validate .agent_shopping_purchase user_id token_str with
  | .error e => .error e
  | .ok _ => .ok { status := "success", query := query, budget := budget }

/-- Result of `trace_supply_chain` (canned trace abstracted; `product_url`
echoes the argument). -/
structure TraceResult where
  status : String
  product_url : String
deriving DecidableEq

/-- Embeds `EthicalConsumptionAgent.trace_supply_chain(user_id, token_str, product_url)`. -/
def trace_supply_chain (validate : Validator)
    (user_id token_str product_url : String) : Except PyError TraceResult :=
  match consentGate validate .custom_supply_chain user_id token_str with
  | .error e => .error e
  | .ok _ => .ok { status := "success", product_url := product_url }

/-- Result of `generate_report` (canned report abstracted; the report embeds
the caller-supplied `user_id`). -/
structure ReportResult where
  status : String
  user_id : String
deriving DecidableEq

/-- Embeds `EthicalConsumptionAgent.generate_report(user_id, token_str)`.
Transcribed from the source: it validates the token against the
`email_access` scope and raises on failure, but — unlike the other four entry
points — it never compares `token.user_id` with the caller-supplied
`user_id`. -/
def generate_report (validate : Validator)
    (user_id token_str : String) : Except PyError ReportResult :=
  let r := validate token_str .vault_read_email
  if r.valid = false then
    .error ⟨"PermissionError", "Consent validation failed: " ++ r.reason⟩
  else
    .ok { status := "success", user_id := user_id }

/-! ## Concrete inputs used by the scenario theorems and witnesses -/

/-- Scenario A product: certifications `["Fair Trade","B-Corp","Organic"]`,
origin `"Local, USA"`, transparency_score 8, public reporting, three visible
tiers. -/
def pA : ProductData :=
  { certifications := ["Fair Trade", "B-Corp", "Organic"]
    origin := "Local, USA"
    supply_chain := { transparency_score := 8, public_reporting := true,
                      tier_visibility := ["tier1", "tier2", "tier3"] } }

/-- A user-values dict rating the three read keys at least 4. -/
def uvA : UserValues :=
  [("environmental_importance", (5 : Int)), ("labor_practices_importance", 4),
   ("transparency_importance", 5)]

/-- Scenario B product: no certifications, origin `"Unknown"`,
transparency_score 2. -/
def pB : ProductData :=
  { origin := "Unknown", supply_chain := { transparency_score := 2 } }

/-- A user-values dict rating every importance 5. -/
def uvB : UserValues :=
  [("environmental_importance", (5 : Int)), ("labor_practices_importance", 5),
   ("transparency_importance", 5)]

/-- A product whose supplied supply-chain `transparency_score` is negative. -/
def pNeg : ProductData :=
  { supply_chain := { transparency_score := -3 } }

/-- The result `score_ethical_factors(pB, uvB)` evaluates to. -/
def scoreB : ScoreResult :=
  { overall_score := 21/5
    component_scores := [("environmental", 5), ("labor", 5), ("supply_chain", 2),
                         ("transparency", 5), ("certifications", 0)]
    strengths := []
    concerns := ["Limited supply chain information", "Limited certifications information"]
    certifications_found := []
    user_alignment := "high"
    scoring_methodology := "weighted_multi_factor" }

/-- A concrete validator used as witness input: the token text `"bad"` is
rejected as revoked, every other token text decodes to subject `"alice"`. -/
def vW : Validator := fun t _ =>
  if t = "bad" then ⟨false, "Token has been revoked", none⟩
  else ⟨true, "", some ⟨"alice"⟩⟩

/-- The `EthicalValues` profile captured from responses 4, 5, 3, 4, 5. -/
def valsW : EthicalValues := ⟨4, 5, 3, 4, 5⟩

/-- The result of a values assessment run on responses 4, 5, 3, 4, 5. -/
def resW : ValuesResult :=
  { status := "success"
    message := "Ethical values assessment completed"
    values := valsW
    summary := generate_values_summary valsW }

/-! ## General lemmas -/

theorem round1_nonneg {q : ℚ} (h : 0 ≤ q) : 0 ≤ round1 q := by
  unfold round1
  have : (0 : ℤ) ≤ ⌊q * 10 + 1/2⌋ := by
    apply Int.floor_nonneg.mpr
    nlinarith
  positivity

theorem round1_le_ten {q : ℚ} (h : q ≤ 10) : round1 q ≤ 10 := by
  unfold round1
  have h1 : ⌊q * 10 + 1/2⌋ ≤ 100 := by
    have : q * 10 + 1/2 ≤ (100 : ℚ) + 1 := by nlinarith
    have h0 : ⌊q * 10 + 1/2⌋ ≤ ⌊(201 : ℚ)/2⌋ := Int.floor_le_floor (by nlinarith)
    have : ⌊(201 : ℚ)/2⌋ = 100 := by norm_num
    omega
  have h2 : (⌊q * 10 + 1/2⌋ : ℚ) ≤ 100 := by exact_mod_cast h1
  linarith

theorem round1_mono {q q' : ℚ} (h : q ≤ q') : round1 q ≤ round1 q' := by
  unfold round1
  have h1 : ⌊q * 10 + 1/2⌋ ≤ ⌊q' * 10 + 1/2⌋ := by
    apply Int.floor_le_floor
    linarith
  have h2 : (⌊q * 10 + 1/2⌋ : ℚ) ≤ (⌊q' * 10 + 1/2⌋ : ℚ) := by exact_mod_cast h1
  linarith

theorem ite_zero_nonneg {c : Prop} [Decidable c] {x : ℚ} (hx : 0 ≤ x) :
    0 ≤ if c then x else 0 := by
  split_ifs <;> simp [hx]

theorem ite_zero_mono {c c' : Prop} [Decidable c] [Decidable c'] (h : c → c')
    {x : ℚ} (hx : 0 ≤ x) : (if c then x else 0) ≤ if c' then x else 0 := by
  split_ifs with h1 h2
  · exact le_refl x
  · exact absurd (h h1) h2
  · exact hx
  · exact le_refl 0

theorem componentScore_le_ten (p : ProductData) (f : Factor) :
    componentScore p f ≤ 10 := by
  cases f <;> · simp only [componentScore]; exact min_le_right _ _

theorem componentScore_environmental_ge (p : ProductData) :
    5 ≤ componentScore p .environmental := by
  simp only [componentScore]
  refine le_min ?_ (by norm_num)
  have b1 : (0:ℚ) ≤ if hasCert p "organic" then 3/2 else 0 := ite_zero_nonneg (by norm_num)
  have b2 : (0:ℚ) ≤ if dictContains p.environmental_impact "carbon neutral" then 1 else 0 :=
    ite_zero_nonneg (by norm_num)
  have b3 : (0:ℚ) ≤ if dictContains p.environmental_impact "renewable energy" then 1 else 0 :=
    ite_zero_nonneg (by norm_num)
  have b4 : (0:ℚ) ≤ if productContains p "recyclable" then 1/2 else 0 :=
    ite_zero_nonneg (by norm_num)
  linarith

theorem componentScore_labor_ge (p : ProductData) : 5 ≤ componentScore p .labor := by
  simp only [componentScore]
  refine le_min ?_ (by norm_num)
  have b1 : (0:ℚ) ≤ if hasCert p "fair trade" then 2 else 0 := ite_zero_nonneg (by norm_num)
  have b2 : (0:ℚ) ≤ if dictContains p.labor_practices "living wage" then 3/2 else 0 :=
    ite_zero_nonneg (by norm_num)
  have b3 : (0:ℚ) ≤ if dictContains p.labor_practices "worker rights" then 1 else 0 :=
    ite_zero_nonneg (by norm_num)
  have b4 : (0:ℚ) ≤ if hasCert p "sa8000" then 1 else 0 := ite_zero_nonneg (by norm_num)
  linarith

theorem componentScore_transparency_ge (p : ProductData) :
    5 ≤ componentScore p .transparency := by
  simp only [componentScore]
  refine le_min ?_ (by norm_num)
  have b1 : (0:ℚ) ≤ if p.supply_chain.public_reporting then 3/2 else 0 :=
    ite_zero_nonneg (by norm_num)
  have b2 : (0:ℚ) ≤ if hasCert p "b-corp" then 2 else 0 := ite_zero_nonneg (by norm_num)
  have b3 : (0:ℚ) ≤ if p.certifications.length > 2 then 1 else 0 :=
    ite_zero_nonneg (by norm_num)
  linarith

theorem componentScore_nonneg (p : ProductData) (f : Factor)
    (hts : 0 ≤ p.supply_chain.transparency_score) : 0 ≤ componentScore p f := by
  cases f
  · linarith [componentScore_environmental_ge p]
  · linarith [componentScore_labor_ge p]
  · simp only [componentScore]
    refine le_min ?_ (by norm_num)
    have b1 : (0:ℚ) ≤ if strContains (lc p.origin) "local" || strContains (lc p.origin) "domestic" then 3/2 else 0 :=
      ite_zero_nonneg (by norm_num)
    have b2 : (0:ℚ) ≤ if p.supply_chain.tier_visibility.length > 2 then 1 else 0 :=
      ite_zero_nonneg (by norm_num)
    linarith
  · linarith [componentScore_transparency_ge p]
  · simp only [componentScore]
    refine le_min ?_ (by norm_num)
    positivity

theorem userMultiplier_ge_one (p : ProductData) (uv : UserValues) :
    1 ≤ userMultiplier p uv := by
  simp only [userMultiplier]
  have h1 : (0:ℚ) ≤ if uvGet uv "environmental_importance" ≥ 4
      then (1/10) * (componentScore p .environmental / 10) else 0 :=
    ite_zero_nonneg (by linarith [componentScore_environmental_ge p])
  have h2 : (0:ℚ) ≤ if uvGet uv "labor_practices_importance" ≥ 4
      then (1/10) * (componentScore p .labor / 10) else 0 :=
    ite_zero_nonneg (by linarith [componentScore_labor_ge p])
  have h3 : (0:ℚ) ≤ if uvGet uv "transparency_importance" ≥ 4
      then (1/10) * (componentScore p .transparency / 10) else 0 :=
    ite_zero_nonneg (by linarith [componentScore_transparency_ge p])
  linarith

theorem weightedSum_nonneg (p : ProductData)
    (hts : 0 ≤ p.supply_chain.transparency_score) :
    ∀ l : List (String × ℚ), (∀ kv ∈ l, 0 ≤ kv.2) →
      ∀ q, weightedSum p l = some q → 0 ≤ q := by
  intro l
  induction l with
  | nil =>
      intro _ q hq
      simp only [weightedSum, Option.some.injEq] at hq
      linarith [hq]
  | cons kv rest ih =>
      intro hw q hq
      simp only [weightedSum] at hq
      cases hf : factorOfName kv.1 with
      | none => rw [hf] at hq; simp at hq
      | some f =>
          rw [hf] at hq
          cases hr : weightedSum p rest with
          | none => rw [hr] at hq; simp at hq
          | some s =>
              rw [hr] at hq
              simp only [Option.map_some', Option.some.injEq] at hq
              have hs : 0 ≤ s := ih (fun kv h => hw kv (List.mem_cons_of_mem _ h)) s hr
              have hkv : 0 ≤ kv.2 := hw kv (List.mem_cons_self _ _)
              have hc : 0 ≤ componentScore p f := componentScore_nonneg p f hts
              rw [← hq]
              positivity

theorem factorOfName_name (f : Factor) : factorOfName f.name = some f := by
  cases f <;> rfl

theorem consentGate_invalid (validate : Validator) (s : ConsentScope)
    (uid tok : String) (h : (validate tok s).valid = false) :
    consentGate validate s uid tok
      = .error ⟨"PermissionError", "Consent validation failed: " ++ (validate tok s).reason⟩ := by
  unfold consentGate
  rw [if_pos h]

theorem consentGate_mismatch (validate : Validator) (s : ConsentScope)
    (uid tok : String) (t : DecodedToken) (hv : validate tok s = ⟨true, "", some t⟩)
    (hne : t.user_id ≠ uid) :
    consentGate validate s uid tok
      = .error ⟨"PermissionError", "Token user ID does not match provided user"⟩ := by
  unfold consentGate
  rw [hv]
  simp [hne]

theorem askOne_range : ∀ rs : List Response, ∀ n rest,
    askOne rs = some (n, rest) → 1 ≤ n ∧ n ≤ 5 := by
  intro rs
  induction rs with
  | nil => intro n rest h; simp [askOne] at h
  | cons r rest' ih =>
      intro n rest h
      cases r with
      | none => exact ih n rest (by simpa [askOne] using h)
      | some m =>
          simp only [askOne] at h
          split_ifs at h with hm
          · obtain ⟨h1, h2⟩ := Prod.mk.injEq .. ▸ (Option.some.injEq .. ▸ h)
            exact h1 ▸ hm
          · exact ih n rest h

/-! ## Evaluation lemmas for the concrete inputs -/

theorem pA_env : componentScore pA .environmental = 13/2 := by
  have h1 : hasCert pA "organic" = true := by decide
  have h2 : dictContains pA.environmental_impact "carbon neutral" = false := by decide
  have h3 : dictContains pA.environmental_impact "renewable energy" = false := by decide
  have h4 : productContains pA "recyclable" = false := by decide
  simp only [componentScore, h1, h2, h3, h4, if_true, if_false, Bool.false_eq_true,
    ite_true, ite_false]
  norm_num [min_def]

theorem pA_labor : componentScore pA .labor = 7 := by
  have h1 : hasCert pA "fair trade" = true := by decide
  have h2 : dictContains pA.labor_practices "living wage" = false := by decide
  have h3 : dictContains pA.labor_practices "worker rights" = false := by decide
  have h4 : hasCert pA "sa8000" = false := by decide
  simp only [componentScore, h1, h2, h3, h4, if_true, if_false, Bool.false_eq_true,
    ite_true, ite_false]
  norm_num [min_def]

theorem pA_supply : componentScore pA .supply_chain = 10 := by
  have h1 : strContains (lc pA.origin) "local" = true := by decide
  have h2 : pA.supply_chain.transparency_score = 8 := rfl
  have h3 : (2:ℕ) < pA.supply_chain.tier_visibility.length := by decide
  simp only [componentScore, h1, h2, h3, Bool.true_or, if_true, ite_true, gt_iff_lt]
  norm_num [min_def]

theorem pA_trans : componentScore pA .transparency = 19/2 := by
  have h1 : hasCert pA "b-corp" = true := by decide
  have h2 : pA.supply_chain.public_reporting = true := rfl
  have h3 : (2:ℕ) < pA.certifications.length := by decide
  simp only [componentScore, h1, h2, h3, if_true, ite_true, gt_iff_lt]
  norm_num [min_def]

theorem pA_cert : componentScore pA .certifications = 9/2 := by
  have h : pA.certifications.length = 3 := rfl
  simp only [componentScore, h]
  norm_num [min_def]

theorem pA_ws : weightedSum pA defaultWeights = some (299/40) := by
  simp only [defaultWeights, weightedSum, factorOfName, String.reduceEq, reduceIte,
    pA_env, pA_labor, pA_supply, pA_trans, pA_cert, Option.map_some']
  norm_num

theorem pA_mult (uv : UserValues)
    (h1 : uvGet uv "environmental_importance" ≥ 4)
    (h2 : uvGet uv "labor_practices_importance" ≥ 4)
    (h3 : uvGet uv "transparency_importance" ≥ 4) :
    userMultiplier pA uv = 123/100 := by
  simp only [userMultiplier, if_pos h1, if_pos h2, if_pos h3, pA_env, pA_labor, pA_trans]
  norm_num

theorem pB_env : componentScore pB .environmental = 5 := by
  have h1 : hasCert pB "organic" = false := by decide
  have h2 : dictContains pB.environmental_impact "carbon neutral" = false := by decide
  have h3 : dictContains pB.environmental_impact "renewable energy" = false := by decide
  have h4 : productContains pB "recyclable" = false := by decide
  simp only [componentScore, h1, h2, h3, h4, Bool.false_eq_true, if_false, ite_false]
  norm_num [min_def]

theorem pB_labor : componentScore pB .labor = 5 := by
  have h1 : hasCert pB "fair trade" = false := by decide
  have h2 : dictContains pB.labor_practices "living wage" = false := by decide
  have h3 : dictContains pB.labor_practices "worker rights" = false := by decide
  have h4 : hasCert pB "sa8000" = false := by decide
  simp only [componentScore, h1, h2, h3, h4, Bool.false_eq_true, if_false, ite_false]
  norm_num [min_def]

theorem pB_supply : componentScore pB .supply_chain = 2 := by
  have h1 : strContains (lc pB.origin) "local" = false := by decide
  have h2 : strContains (lc pB.origin) "domestic" = false := by decide
  have h3 : ¬ (2:ℕ) < pB.supply_chain.tier_visibility.length := by decide
  have h4 : pB.supply_chain.transparency_score = 2 := rfl
  simp only [componentScore, h1, h2, h3, h4, Bool.or_self, Bool.false_eq_true, if_false,
    ite_false, gt_iff_lt]
  norm_num [min_def]

theorem pB_trans : componentScore pB .transparency = 5 := by
  have h1 : hasCert pB "b-corp" = false := by decide
  have h2 : pB.supply_chain.public_reporting = false := rfl
  have h3 : ¬ (2:ℕ) < pB.certifications.length := by decide
  simp only [componentScore, h1, h2, h3, Bool.false_eq_true, if_false, ite_false, gt_iff_lt]
  norm_num [min_def]

theorem pB_cert : componentScore pB .certifications = 0 := by
  have h : pB.certifications.length = 0 := rfl
  simp only [componentScore, h]
  norm_num [min_def]

theorem pB_ws : weightedSum pB defaultWeights = some (73/20) := by
  simp only [defaultWeights, weightedSum, factorOfName, String.reduceEq, reduceIte,
    pB_env, pB_labor, pB_supply, pB_trans, pB_cert, Option.map_some']
  norm_num

theorem pB_mult (uv : UserValues)
    (h1 : uvGet uv "environmental_importance" ≥ 4)
    (h2 : uvGet uv "labor_practices_importance" ≥ 4)
    (h3 : uvGet uv "transparency_importance" ≥ 4) :
    userMultiplier pB uv = 23/20 := by
  simp only [userMultiplier, if_pos h1, if_pos h2, if_pos h3, pB_env, pB_labor, pB_trans]
  norm_num

theorem pB_strengths : strengthsOf pB = [] := by
  simp only [strengthsOf, factorOrder, List.filter, pB_env, pB_labor, pB_supply, pB_trans,
    pB_cert, decide_eq_true_eq]
  norm_num

theorem pB_concerns : concernsOf pB
    = ["Limited supply chain information", "Limited certifications information"] := by
  simp only [concernsOf, factorOrder, List.filter, pB_env, pB_labor, pB_supply, pB_trans,
    pB_cert, decide_eq_true_eq]
  norm_num [Factor.display, List.map]
  exact ⟨rfl, rfl⟩

theorem pB_score : score_ethical_factors pB uvB none = some scoreB := by
  have hm : userMultiplier pB uvB = 23/20 :=
    pB_mult uvB (by decide) (by decide) (by decide)
  have hov : round1 (min ((73/20) * ((23:ℚ)/20)) 10) = 21/5 := by
    norm_num [round1, min_def]
  have hcs : factorOrder.map (fun f => (f.name, round1 (componentScore pB f)))
      = [("environmental", (5:ℚ)), ("labor", 5), ("supply_chain", 2),
         ("transparency", 5), ("certifications", 0)] := by
    simp only [factorOrder, List.map, Factor.name, pB_env, pB_labor, pB_supply, pB_trans,
      pB_cert]
    norm_num [round1]
  simp only [score_ethical_factors, Option.getD, pB_ws, Option.map_some', hm, hov, hcs,
    pB_strengths, pB_concerns, scoreB]
  norm_num
  rfl

theorem pNeg_supply : componentScore pNeg .supply_chain = -3 := by
  have h1 : strContains (lc pNeg.origin) "local" = false := by decide
  have h2 : strContains (lc pNeg.origin) "domestic" = false := by decide
  have h3 : ¬ (2:ℕ) < pNeg.supply_chain.tier_visibility.length := by decide
  have h4 : pNeg.supply_chain.transparency_score = -3 := rfl
  simp only [componentScore, h1, h2, h3, h4, Bool.or_self, Bool.false_eq_true, if_false,
    ite_false, gt_iff_lt]
  norm_num [min_def]

theorem pNeg_env : componentScore pNeg .environmental = 5 := by
  have h1 : hasCert pNeg "organic" = false := by decide
  have h2 : dictContains pNeg.environmental_impact "carbon neutral" = false := by decide
  have h3 : dictContains pNeg.environmental_impact "renewable energy" = false := by decide
  have h4 : productContains pNeg "recyclable" = false := by decide
  simp only [componentScore, h1, h2, h3, h4, Bool.false_eq_true, if_false, ite_false]
  norm_num [min_def]

theorem pNeg_labor : componentScore pNeg .labor = 5 := by
  have h1 : hasCert pNeg "fair trade" = false := by decide
  have h2 : dictContains pNeg.labor_practices "living wage" = false := by decide
  have h3 : dictContains pNeg.labor_practices "worker rights" = false := by decide
  have h4 : hasCert pNeg "sa8000" = false := by decide
  simp only [componentScore, h1, h2, h3, h4, Bool.false_eq_true, if_false, ite_false]
  norm_num [min_def]

theorem pNeg_trans : componentScore pNeg .transparency = 5 := by
  have h1 : hasCert pNeg "b-corp" = false := by decide
  have h2 : pNeg.supply_chain.public_reporting = false := rfl
  have h3 : ¬ (2:ℕ) < pNeg.certifications.length := by decide
  simp only [componentScore, h1, h2, h3, Bool.false_eq_true, if_false, ite_false, gt_iff_lt]
  norm_num [min_def]

theorem pNeg_cert : componentScore pNeg .certifications = 0 := by
  have h : pNeg.certifications.length = 0 := rfl
  simp only [componentScore, h]
  norm_num [min_def]

theorem pNeg_ws : weightedSum pNeg defaultWeights = some (53/20) := by
  simp only [defaultWeights, weightedSum, factorOfName, String.reduceEq, reduceIte,
    pNeg_env, pNeg_labor, pNeg_supply, pNeg_trans, pNeg_cert, Option.map_some']
  norm_num

/-! ## Monotonicity lemmas -/

theorem dictContains_append (d : PyDict) (kv : String × String) (pat : String)
    (h : dictContains d pat = true) : dictContains (d ++ [kv]) pat = true := by
  simp only [dictContains, List.any_append, Bool.or_eq_true] at h ⊢
  exact Or.inl h

theorem hasCert_addCert (p : ProductData) (c x : String) (h : hasCert p x = true) :
    hasCert { p with certifications := p.certifications ++ [c] } x = true := by
  simp only [hasCert, List.any_append, Bool.or_eq_true] at h ⊢
  exact Or.inl h

theorem productContains_addCert (p : ProductData) (c pat : String)
    (h : productContains p pat = true) :
    productContains { p with certifications := p.certifications ++ [c] } pat = true := by
  simp only [productContains, List.any_append, Bool.or_eq_true] at h ⊢
  rcases h with (((h | h) | h) | h) | h
  · exact Or.inl (Or.inl (Or.inl (Or.inl (Or.inl h))))
  · exact Or.inl (Or.inl (Or.inl (Or.inr h)))
  · exact Or.inl (Or.inl (Or.inr h))
  · exact Or.inl (Or.inr h)
  · exact Or.inr h

theorem productContains_addLabor (p : ProductData) (kv : String × String) (pat : String)
    (h : productContains p pat = true) :
    productContains { p with labor_practices := p.labor_practices ++ [kv] } pat = true := by
  simp only [productContains, Bool.or_eq_true] at h ⊢
  rcases h with (((h | h) | h) | h) | h
  · exact Or.inl (Or.inl (Or.inl (Or.inl h)))
  · exact Or.inl (Or.inl (Or.inl (Or.inr h)))
  · exact Or.inl (Or.inl (Or.inr (dictContains_append _ kv _ h)))
  · exact Or.inl (Or.inr h)
  · exact Or.inr h

theorem productContains_addEnvFlag (p : ProductData) (kv : String × String) (pat : String)
    (h : productContains p pat = true) :
    productContains { p with environmental_impact := p.environmental_impact ++ [kv] } pat
      = true := by
  simp only [productContains, Bool.or_eq_true] at h ⊢
  rcases h with (((h | h) | h) | h) | h
  · exact Or.inl (Or.inl (Or.inl (Or.inl h)))
  · exact Or.inl (Or.inl (Or.inl (Or.inr h)))
  · exact Or.inl (Or.inl (Or.inr h))
  · exact Or.inl (Or.inr (dictContains_append _ kv _ h))
  · exact Or.inr h

theorem componentScore_mono_addCert (p : ProductData) (c : String) (f : Factor) :
    componentScore p f
      ≤ componentScore { p with certifications := p.certifications ++ [c] } f := by
  have hlen : p.certifications.length ≤ (p.certifications ++ [c]).length := by
    simp
  cases f
  case environmental =>
    simp only [componentScore]
    refine min_le_min ?_ le_rfl
    have m1 := ite_zero_mono (hasCert_addCert p c "organic")
      (show (0:ℚ) ≤ 3/2 by norm_num)
    have m4 := ite_zero_mono (productContains_addCert p c "recyclable")
      (show (0:ℚ) ≤ 1/2 by norm_num)
    linarith
  case labor =>
    simp only [componentScore]
    refine min_le_min ?_ le_rfl
    have m1 := ite_zero_mono (hasCert_addCert p c "fair trade")
      (show (0:ℚ) ≤ 2 by norm_num)
    have m4 := ite_zero_mono (hasCert_addCert p c "sa8000")
      (show (0:ℚ) ≤ 1 by norm_num)
    linarith
  case supply_chain =>
    exact le_rfl
  case transparency =>
    simp only [componentScore]
    refine min_le_min ?_ le_rfl
    have m2 := ite_zero_mono (hasCert_addCert p c "b-corp")
      (show (0:ℚ) ≤ 2 by norm_num)
    have m3 := ite_zero_mono (fun h => lt_of_lt_of_le h hlen :
        p.certifications.length > 2 → (p.certifications ++ [c]).length > 2)
      (show (0:ℚ) ≤ 1 by norm_num)
    linarith
  case certifications =>
    simp only [componentScore]
    refine min_le_min ?_ le_rfl
    have : (p.certifications.length : ℚ) ≤ ((p.certifications ++ [c]).length : ℚ) := by
      exact_mod_cast hlen
    nlinarith

theorem componentScore_mono_setPR (p : ProductData) (f : Factor) :
    componentScore p f
      ≤ componentScore
          { p with supply_chain := { p.supply_chain with public_reporting := true } } f := by
  cases f
  case environmental => exact le_rfl
  case labor => exact le_rfl
  case supply_chain => exact le_rfl
  case transparency =>
    simp only [componentScore]
    refine min_le_min ?_ le_rfl
    have eB : hasCert
        { p with supply_chain := { p.supply_chain with public_reporting := true } } "b-corp"
        = hasCert p "b-corp" := rfl
    rw [eB]
    have m1 : (if p.supply_chain.public_reporting = true then (3:ℚ)/2 else 0) ≤ 3/2 := by
      split_ifs <;> norm_num
    simp only [if_true]
    linarith
  case certifications => exact le_rfl

theorem componentScore_mono_addLabor (p : ProductData) (kv : String × String) (f : Factor) :
    componentScore p f
      ≤ componentScore { p with labor_practices := p.labor_practices ++ [kv] } f := by
  cases f
  case environmental =>
    simp only [componentScore]
    refine min_le_min ?_ le_rfl
    have eO : hasCert { p with labor_practices := p.labor_practices ++ [kv] } "organic"
        = hasCert p "organic" := rfl
    rw [eO]
    have m4 := ite_zero_mono (productContains_addLabor p kv "recyclable")
      (show (0:ℚ) ≤ 1/2 by norm_num)
    linarith
  case labor =>
    simp only [componentScore]
    refine min_le_min ?_ le_rfl
    have eF : hasCert { p with labor_practices := p.labor_practices ++ [kv] } "fair trade"
        = hasCert p "fair trade" := rfl
    have eS : hasCert { p with labor_practices := p.labor_practices ++ [kv] } "sa8000"
        = hasCert p "sa8000" := rfl
    rw [eF, eS]
    have m2 := ite_zero_mono (dictContains_append p.labor_practices kv "living wage")
      (show (0:ℚ) ≤ 3/2 by norm_num)
    have m3 := ite_zero_mono (dictContains_append p.labor_practices kv "worker rights")
      (show (0:ℚ) ≤ 1 by norm_num)
    linarith
  case supply_chain => exact le_rfl
  case transparency => exact le_rfl
  case certifications => exact le_rfl

theorem componentScore_mono_addEnvFlag (p : ProductData) (kv : String × String)
    (f : Factor) :
    componentScore p f
      ≤ componentScore { p with environmental_impact := p.environmental_impact ++ [kv] } f := by
  cases f
  case environmental =>
    simp only [componentScore]
    refine min_le_min ?_ le_rfl
    have eO : hasCert { p with environmental_impact := p.environmental_impact ++ [kv] }
        "organic" = hasCert p "organic" := rfl
    rw [eO]
    have m2 := ite_zero_mono (dictContains_append p.environmental_impact kv "carbon neutral")
      (show (0:ℚ) ≤ 1 by norm_num)
    have m3 := ite_zero_mono (dictContains_append p.environmental_impact kv "renewable energy")
      (show (0:ℚ) ≤ 1 by norm_num)
    have m4 := ite_zero_mono (productContains_addEnvFlag p kv "recyclable")
      (show (0:ℚ) ≤ 1/2 by norm_num)
    linarith
  case labor => exact le_rfl
  case supply_chain => exact le_rfl
  case transparency => exact le_rfl
  case certifications => exact le_rfl

/-! ## Claim theorems -/

/-- C1: the claim says every one of the five entry points compares the decoded
token's subject id to the caller-supplied subject id after scope validation,
so a scope-valid token for a different subject never yields a success result.
The source of `generate_report` omits the identity comparison: with a
validator that accepts the token and decodes it to subject `"user_a"`, a call
claiming subject `"user_b"` still returns a success result. -/
theorem generate_report_ignores_subject_mismatch :
    (DecodedToken.mk "user_a").user_id ≠ "user_b"
    ∧ generate_report (fun _ _ => ⟨true, "", some ⟨"user_a"⟩⟩) "user_b" "tok"
        = Except.ok { status := "success", user_id := "user_b" } :=
  ⟨by decide, rfl⟩

/-- C2 counterexample: the claim says a token-validation failure and a
subject-id mismatch reach the caller as two distinct typed failures.  In the
source both paths raise the same exception type `PermissionError`: at these
concrete inputs the two failures have equal error kinds, refuting the claim
as stated. -/
theorem consent_and_mismatch_same_error_kind :
    errKindOf (analyze_purchase_history
        (fun _ _ => ⟨false, "Token has been revoked", none⟩) "u1" "tok" "last_6_months")
      = errKindOf (analyze_purchase_history
        (fun _ _ => ⟨true, "", some ⟨"other"⟩⟩) "u1" "tok" "last_6_months")
    ∧ errKindOf (analyze_purchase_history
        (fun _ _ => ⟨false, "Token has been revoked", none⟩) "u1" "tok" "last_6_months")
      = "PermissionError" :=
  ⟨rfl, rfl⟩

/-- C2 (amended): in every entry point a token-validation failure surfaces as
a raised `PermissionError` whose message is `"Consent validation failed: "`
followed by the validation collaborator's reason string verbatim, and in the
four entry points that check identity (all but `generate_report`) a subject-id
mismatch surfaces as a raised `PermissionError` with the fixed message
`"Token user ID does not match provided user"`; the two failures share the
single exception type `PermissionError` and are distinguished only by their
message strings. -/
theorem error_paths_permission_error (validate : Validator)
    (uid tokF tokM subj period q url : String) (b : Option Int) (rs : List Response)
    (hfail : ∀ s, (validate tokF s).valid = false)
    (hok : ∀ s, validate tokM s = ⟨true, "", some ⟨subj⟩⟩)
    (hne : subj ≠ uid) :
    assess_ethical_values validate uid tokF rs
      = some (.error ⟨"PermissionError", "Consent validation failed: "
          ++ (validate tokF ConsentScope.custom_ethical_values).reason⟩)
    ∧ analyze_purchase_history validate uid tokF period
      = .error ⟨"PermissionError", "Consent validation failed: "
          ++ (validate tokF ConsentScope.vault_read_email).reason⟩
    ∧ search_ethical_products validate uid tokF q b
      = .error ⟨"PermissionError", "Consent validation failed: "
          ++ (validate tokF ConsentScope.agent_shopping_purchase).reason⟩
    ∧ trace_supply_chain validate uid tokF url
      = .error ⟨"PermissionError", "Consent validation failed: "
          ++ (validate tokF ConsentScope.custom_supply_chain).reason⟩
    ∧ generate_report validate uid tokF
      = .error ⟨"PermissionError", "Consent validation failed: "
          ++ (validate tokF ConsentScope.vault_read_email).reason⟩
    ∧ assess_ethical_values validate uid tokM rs
      = some (.error ⟨"PermissionError", "Token user ID does not match provided user"⟩)
    ∧ analyze_purchase_history validate uid tokM period
      = .error ⟨"PermissionError", "Token user ID does not match provided user"⟩
    ∧ search_ethical_products validate uid tokM q b
      = .error ⟨"PermissionError", "Token user ID does not match provided user"⟩
    ∧ trace_supply_chain validate uid tokM url
      = .error ⟨"PermissionError", "Token user ID does not match provided user"⟩ := by
  have gF : ∀ s : ConsentScope, consentGate validate s uid tokF
      = .error ⟨"PermissionError", "Consent validation failed: " ++ (validate tokF s).reason⟩ :=
    fun s => consentGate_invalid validate s uid tokF (hfail s)
  have gM : ∀ s : ConsentScope, consentGate validate s uid tokM
      = .error ⟨"PermissionError", "Token user ID does not match provided user"⟩ :=
    fun s => consentGate_mismatch validate s uid tokM ⟨subj⟩ (hok s) hne
  refine ⟨?_, ?_, ?_, ?_, ?_, ?_, ?_, ?_, ?_⟩
  · simp only [assess_ethical_values, gF]
  · simp only [analyze_purchase_history, gF]
  · simp only [search_ethical_products, gF]
  · simp only [trace_supply_chain, gF]
  · simp only [generate_report]
    rw [if_pos (hfail ConsentScope.vault_read_email)]
  · simp only [assess_ethical_values, gM]
  · simp only [analyze_purchase_history, gM]
  · simp only [search_ethical_products, gM]
  · simp only [trace_supply_chain, gM]

/-- Witness for C2's amended theorem: the concrete validator `vW` rejects the
token text `"bad"` as revoked and decodes every other token to subject
`"alice"`; calling each entry point as subject `"bob"` produces exactly the
two `PermissionError` shapes. -/
theorem error_paths_permission_error_witness :
    assess_ethical_values vW "bob" "bad" []
      = some (.error ⟨"PermissionError", "Consent validation failed: Token has been revoked"⟩)
    ∧ analyze_purchase_history vW "bob" "bad" "last_6_months"
      = .error ⟨"PermissionError", "Consent validation failed: Token has been revoked"⟩
    ∧ search_ethical_products vW "bob" "bad" "headphones" (some 200)
      = .error ⟨"PermissionError", "Consent validation failed: Token has been revoked"⟩
    ∧ trace_supply_chain vW "bob" "bad" "https://example.com/p/1"
      = .error ⟨"PermissionError", "Consent validation failed: Token has been revoked"⟩
    ∧ generate_report vW "bob" "bad"
      = .error ⟨"PermissionError", "Consent validation failed: Token has been revoked"⟩
    ∧ assess_ethical_values vW "bob" "good" []
      = some (.error ⟨"PermissionError", "Token user ID does not match provided user"⟩)
    ∧ analyze_purchase_history vW "bob" "good" "last_6_months"
      = .error ⟨"PermissionError", "Token user ID does not match provided user"⟩
    ∧ search_ethical_products vW "bob" "good" "headphones" (some 200)
      = .error ⟨"PermissionError", "Token user ID does not match provided user"⟩
    ∧ trace_supply_chain vW "bob" "good" "https://example.com/p/1"
      = .error ⟨"PermissionError", "Token user ID does not match provided user"⟩ :=
  error_paths_permission_error vW "bob" "bad" "good" "alice" "last_6_months"
    "headphones" "https://example.com/p/1" (some 200) []
    (fun _ => rfl) (fun _ => rfl) (by decide)

/-- C3 counterexample: the claim says every component score lies in `[0,10]`
for every input.  The supply-chain component is seeded from the supplied
`transparency_score` with no lower clamp: with `transparency_score = -3` the
returned `supply_chain` component is `-3 < 0`. -/
theorem component_below_zero_cex :
    (score_ethical_factors pNeg [] none).map
        (fun r => r.component_scores.lookup "supply_chain") = some (some (-3))
    ∧ ¬ (0 ≤ (-3 : ℚ)) := by
  constructor
  · simp only [score_ethical_factors, Option.getD, pNeg_ws, Option.map_some']
    simp only [factorOrder, List.map, Factor.name, pNeg_env, pNeg_labor, pNeg_supply,
      pNeg_trans, pNeg_cert, Option.some.injEq]
    norm_num [List.lookup, round1,
      show (("supply_chain" : String) == "environmental") = false from by decide,
      show (("supply_chain" : String) == "labor") = false from by decide,
      show (("supply_chain" : String) == "supply_chain") = true from by decide]
  · norm_num

/-- C3 (amended): on every input for which the call returns a result, every
component score and the overall score are at most 10.0 — no bonus combination
exceeds 10.0, unconditionally — and whenever additionally the supplied
supply-chain `transparency_score` is non-negative and the weights in force
are non-negative, every returned component score and the overall score also
lie in `[0,10]`.  (The un-amended lower bound fails because the
`supply_chain` component is seeded from the un-floored input
`transparency_score`.) -/
theorem scores_in_range_of_nonneg_inputs (p : ProductData) (uv : UserValues)
    (w : Option (List (String × ℚ))) (r : ScoreResult)
    (hr : score_ethical_factors p uv w = some r) :
    (∀ kv ∈ r.component_scores, kv.2 ≤ 10)
    ∧ r.overall_score ≤ 10
    ∧ (0 ≤ p.supply_chain.transparency_score →
        (∀ kv ∈ w.getD defaultWeights, 0 ≤ kv.2) →
        (∀ kv ∈ r.component_scores, 0 ≤ kv.2) ∧ 0 ≤ r.overall_score) := by
  simp only [score_ethical_factors] at hr
  cases hws : weightedSum p (w.getD defaultWeights) with
  | none => rw [hws] at hr; simp at hr
  | some ov =>
      rw [hws] at hr
      simp only [Option.map_some', Option.some.injEq] at hr
      subst hr
      refine ⟨?_, ?_, ?_⟩
      · intro kv hkv
        simp only [List.mem_map] at hkv
        obtain ⟨f, hf, rfl⟩ := hkv
        exact round1_le_ten (componentScore_le_ten p f)
      · exact round1_le_ten (min_le_right _ _)
      · intro hts hw
        constructor
        · intro kv hkv
          simp only [List.mem_map] at hkv
          obtain ⟨f, hf, rfl⟩ := hkv
          exact round1_nonneg (componentScore_nonneg p f hts)
        · apply round1_nonneg
          refine le_min ?_ (by norm_num)
          have hov : 0 ≤ ov := weightedSum_nonneg p hts _ hw ov hws
          have hm : 1 ≤ userMultiplier p uv := userMultiplier_ge_one p uv
          nlinarith

/-- C4: the user-preference multiplier starts at 1.0 and adds
`0.1 * (componentScore / 10)` for each of environmental, labor and
transparency whose importance value is at least 4; a key missing from
`user_values` is read as importance 3 and contributes nothing; the multiplier
scales the weighted overall score, the product is clamped at 10.0 (and then
rounded to one decimal), and `user_alignment` is `"high"` exactly when the
multiplier exceeds 1.05. -/
theorem multiplier_alignment_spec (p : ProductData) (uv : UserValues)
    (w : Option (List (String × ℚ))) :
    userMultiplier p uv
      = 1 + (if uvGet uv "environmental_importance" ≥ 4
              then (1/10) * (componentScore p .environmental / 10) else 0)
          + (if uvGet uv "labor_practices_importance" ≥ 4
              then (1/10) * (componentScore p .labor / 10) else 0)
          + (if uvGet uv "transparency_importance" ≥ 4
              then (1/10) * (componentScore p .transparency / 10) else 0)
    ∧ (∀ k, uv.lookup k = none → uvGet uv k = 3)
    ∧ (∀ k, uv.lookup k = none →
        userMultiplier p ((k, (3 : Int)) :: uv) = userMultiplier p uv)
    ∧ (∀ ov r, weightedSum p (w.getD defaultWeights) = some ov →
        score_ethical_factors p uv w = some r →
        r.overall_score = round1 (min (ov * userMultiplier p uv) 10)
        ∧ (r.user_alignment = "high" ↔ 21/20 < userMultiplier p uv)) := by
  refine ⟨rfl, ?_, ?_, ?_⟩
  · intro k hk
    simp [uvGet, hk]
  · intro k hk
    have huv : ∀ s, uvGet ((k, (3 : Int)) :: uv) s = uvGet uv s := by
      intro s
      by_cases h : s = k
      · subst h
        simp [uvGet, List.lookup, hk]
      · have hbeq : (s == k) = false := beq_eq_false_iff_ne.mpr h
        simp [uvGet, List.lookup, hbeq]
    simp only [userMultiplier, huv]
  · intro ov r hov hr
    simp only [score_ethical_factors] at hr
    rw [hov] at hr
    simp only [Option.map_some', Option.some.injEq] at hr
    subst hr
    refine ⟨rfl, ?_⟩
    show (if userMultiplier p uv > 21/20 then "high" else "moderate") = "high"
      ↔ 21/20 < userMultiplier p uv
    by_cases hm : 21/20 < userMultiplier p uv
    · rw [if_pos hm]
      simp [hm]
    · rw [if_neg hm]
      simp [hm]

/-- Witness for C4 at the Scenario B input: the key
`"animal_welfare_importance"` is absent from `uvB` and is read as 3,
prepending it with value 3 leaves the multiplier unchanged, and the returned
overall score and alignment tag follow the multiplier formulas. -/
theorem multiplier_alignment_spec_witness :
    uvGet uvB "animal_welfare_importance" = 3
    ∧ userMultiplier pB (("animal_welfare_importance", (3 : Int)) :: uvB)
        = userMultiplier pB uvB
    ∧ (scoreB.overall_score = round1 (min ((73/20) * userMultiplier pB uvB) 10)
        ∧ (scoreB.user_alignment = "high" ↔ 21/20 < userMultiplier pB uvB)) := by
  obtain ⟨_, h2, h3, h4⟩ := multiplier_alignment_spec pB uvB none
  exact ⟨h2 _ (by decide), h3 _ (by decide), h4 (73/20) scoreB pB_ws pB_score⟩

/-- C5: extending a product with a positive signal — appending any string to
the certifications list, setting the supply-chain `public_reporting` flag, or
appending an entry to the `labor_practices` or `environmental_impact` dicts —
never decreases any component score, before or after the one-decimal rounding
applied to the component scores returned by `score_ethical_factors`. -/
theorem positive_signals_monotone (p : ProductData) (c : String)
    (kv : String × String) (f : Factor) :
    componentScore p f
      ≤ componentScore { p with certifications := p.certifications ++ [c] } f
    ∧ componentScore p f
      ≤ componentScore
          { p with supply_chain := { p.supply_chain with public_reporting := true } } f
    ∧ componentScore p f
      ≤ componentScore { p with labor_practices := p.labor_practices ++ [kv] } f
    ∧ componentScore p f
      ≤ componentScore { p with environmental_impact := p.environmental_impact ++ [kv] } f
    ∧ round1 (componentScore p f)
      ≤ round1 (componentScore { p with certifications := p.certifications ++ [c] } f)
    ∧ round1 (componentScore p f)
      ≤ round1 (componentScore
          { p with supply_chain := { p.supply_chain with public_reporting := true } } f)
    ∧ round1 (componentScore p f)
      ≤ round1 (componentScore { p with labor_practices := p.labor_practices ++ [kv] } f)
    ∧ round1 (componentScore p f)
      ≤ round1 (componentScore
          { p with environmental_impact := p.environmental_impact ++ [kv] } f) :=
  ⟨componentScore_mono_addCert p c f, componentScore_mono_setPR p f,
   componentScore_mono_addLabor p kv f, componentScore_mono_addEnvFlag p kv f,
   round1_mono (componentScore_mono_addCert p c f),
   round1_mono (componentScore_mono_setPR p f),
   round1_mono (componentScore_mono_addLabor p kv f),
   round1_mono (componentScore_mono_addEnvFlag p kv f)⟩

/-- C6: `score_ethical_factors` is deterministic — two calls on equal inputs
return equal results in every field. -/
theorem score_deterministic (p₁ p₂ : ProductData) (uv₁ uv₂ : UserValues)
    (w₁ w₂ : Option (List (String × ℚ)))
    (hp : p₁ = p₂) (hu : uv₁ = uv₂) (hw : w₁ = w₂) :
    score_ethical_factors p₁ uv₁ w₁ = score_ethical_factors p₂ uv₂ w₂ := by
  subst hp
  subst hu
  subst hw
  rfl

/-- Witness for C6 at the Scenario B input. -/
theorem score_deterministic_witness :
    score_ethical_factors pB uvB none = score_ethical_factors pB uvB none :=
  score_deterministic pB pB uvB uvB none none rfl rfl rfl

/-- C7: on the Scenario A product (certifications Fair Trade, B-Corp and
Organic, origin `"Local, USA"`, transparency_score 8, public reporting, three
visible tiers), any user rating environmental, labor and transparency
importance at least 4 gets an overall score of at least 7.0 and
`user_alignment = "high"`. -/
theorem scenario_a_high_score (uv : UserValues)
    (h1 : uvGet uv "environmental_importance" ≥ 4)
    (h2 : uvGet uv "labor_practices_importance" ≥ 4)
    (h3 : uvGet uv "transparency_importance" ≥ 4) :
    ∃ r, score_ethical_factors pA uv none = some r
      ∧ 7 ≤ r.overall_score ∧ r.user_alignment = "high" := by
  have hm := pA_mult uv h1 h2 h3
  have hs : score_ethical_factors pA uv none = some
      { overall_score := round1 (min (299/40 * userMultiplier pA uv) 10)
        component_scores := factorOrder.map fun f => (f.name, round1 (componentScore pA f))
        strengths := strengthsOf pA
        concerns := concernsOf pA
        certifications_found := pA.certifications
        user_alignment := if userMultiplier pA uv > 21/20 then "high" else "moderate"
        scoring_methodology := "weighted_multi_factor" } := by
    simp only [score_ethical_factors, Option.getD, pA_ws, Option.map_some']
  rw [hm] at hs
  refine ⟨_, hs, ?_, ?_⟩
  · show 7 ≤ round1 (min (299/40 * (123/100)) 10)
    norm_num [round1, min_def]
  · show (if (123:ℚ)/100 > 21/20 then "high" else "moderate") = "high"
    norm_num

/-- Witness for C7 with the concrete user values `uvA`. -/
theorem scenario_a_high_score_witness :
    uvGet uvA "environmental_importance" ≥ 4
    ∧ uvGet uvA "labor_practices_importance" ≥ 4
    ∧ uvGet uvA "transparency_importance" ≥ 4
    ∧ (∃ r, score_ethical_factors pA uvA none = some r
        ∧ 7 ≤ r.overall_score ∧ r.user_alignment = "high") :=
  ⟨by decide, by decide, by decide,
   scenario_a_high_score uvA (by decide) (by decide) (by decide)⟩

/-- C8: on the Scenario B product (no certifications, origin `"Unknown"`,
transparency_score 2), any user rating environmental, labor and transparency
importance at least 4 gets an overall score of at most 6.0 and a non-empty
concerns list. -/
theorem scenario_b_low_score (uv : UserValues)
    (h1 : uvGet uv "environmental_importance" ≥ 4)
    (h2 : uvGet uv "labor_practices_importance" ≥ 4)
    (h3 : uvGet uv "transparency_importance" ≥ 4) :
    ∃ r, score_ethical_factors pB uv none = some r
      ∧ r.overall_score ≤ 6 ∧ r.concerns ≠ [] := by
  have hm := pB_mult uv h1 h2 h3
  have hs : score_ethical_factors pB uv none = some
      { overall_score := round1 (min (73/20 * userMultiplier pB uv) 10)
        component_scores := factorOrder.map fun f => (f.name, round1 (componentScore pB f))
        strengths := strengthsOf pB
        concerns := concernsOf pB
        certifications_found := pB.certifications
        user_alignment := if userMultiplier pB uv > 21/20 then "high" else "moderate"
        scoring_methodology := "weighted_multi_factor" } := by
    simp only [score_ethical_factors, Option.getD, pB_ws, Option.map_some']
  rw [hm] at hs
  refine ⟨_, hs, ?_, ?_⟩
  · show round1 (min (73/20 * (23/20)) 10) ≤ 6
    norm_num [round1, min_def]
  · show concernsOf pB ≠ []
    rw [pB_concerns]
    simp

/-- Witness for C8 with the concrete user values `uvB`. -/
theorem scenario_b_low_score_witness :
    uvGet uvB "environmental_importance" ≥ 4
    ∧ uvGet uvB "labor_practices_importance" ≥ 4
    ∧ uvGet uvB "transparency_importance" ≥ 4
    ∧ (∃ r, score_ethical_factors pB uvB none = some r
        ∧ r.overall_score ≤ 6 ∧ r.concerns ≠ []) :=
  ⟨by decide, by decide, by decide,
   scenario_b_low_score uvB (by decide) (by decide) (by decide)⟩

/-- Helper for C9: every value captured by the assessment loop is in `[1,5]`:
the loop re-prompts (consumes further responses) on a non-numeric or
out-of-range response instead of storing it. -/
theorem captureValues_range : ∀ (rs : List Response) (v : EthicalValues),
    captureValues rs = some v →
    (1 ≤ v.environmental_importance ∧ v.environmental_importance ≤ 5)
    ∧ (1 ≤ v.labor_practices_importance ∧ v.labor_practices_importance ≤ 5)
    ∧ (1 ≤ v.local_sourcing_preference ∧ v.local_sourcing_preference ≤ 5)
    ∧ (1 ≤ v.animal_welfare_importance ∧ v.animal_welfare_importance ≤ 5)
    ∧ (1 ≤ v.transparency_importance ∧ v.transparency_importance ≤ 5) := by
  intro rs v h
  simp only [captureValues] at h
  cases ha1 : askOne rs with
  | none => rw [ha1] at h; simp at h
  | some a1 =>
  obtain ⟨n1, rs1⟩ := a1
  rw [ha1] at h
  dsimp only at h
  cases ha2 : askOne rs1 with
  | none => rw [ha2] at h; simp at h
  | some a2 =>
  obtain ⟨n2, rs2⟩ := a2
  rw [ha2] at h
  dsimp only at h
  cases ha3 : askOne rs2 with
  | none => rw [ha3] at h; simp at h
  | some a3 =>
  obtain ⟨n3, rs3⟩ := a3
  rw [ha3] at h
  dsimp only at h
  cases ha4 : askOne rs3 with
  | none => rw [ha4] at h; simp at h
  | some a4 =>
  obtain ⟨n4, rs4⟩ := a4
  rw [ha4] at h
  dsimp only at h
  cases ha5 : askOne rs4 with
  | none => rw [ha5] at h; simp at h
  | some a5 =>
  obtain ⟨n5, rs5⟩ := a5
  rw [ha5] at h
  dsimp only at h
  have hv := Option.some.inj h
  subst hv
  exact ⟨askOne_range rs n1 rs1 ha1, askOne_range rs1 n2 rs2 ha2,
         askOne_range rs2 n3 rs3 ha3, askOne_range rs3 n4 rs4 ha4,
         askOne_range rs4 n5 rs5 ha5⟩

/-- C9: whenever the values assessment returns a success result, every
preference value of the returned profile lies in the closed interval `[1,5]`:
out-of-range or non-numeric responses are re-prompted, never stored. -/
theorem captured_values_in_range (validate : Validator) (uid tok : String)
    (rs : List Response) (res : ValuesResult)
    (h : assess_ethical_values validate uid tok rs = some (Except.ok res)) :
    (1 ≤ res.values.environmental_importance ∧ res.values.environmental_importance ≤ 5)
    ∧ (1 ≤ res.values.labor_practices_importance ∧ res.values.labor_practices_importance ≤ 5)
    ∧ (1 ≤ res.values.local_sourcing_preference ∧ res.values.local_sourcing_preference ≤ 5)
    ∧ (1 ≤ res.values.animal_welfare_importance ∧ res.values.animal_welfare_importance ≤ 5)
    ∧ (1 ≤ res.values.transparency_importance ∧ res.values.transparency_importance ≤ 5) := by
  simp only [assess_ethical_values] at h
  cases hg : consentGate validate ConsentScope.custom_ethical_values uid tok with
  | error e => rw [hg] at h; simp at h
  | ok t =>
      rw [hg] at h
      dsimp only at h
      cases hc : captureValues rs with
      | none => rw [hc] at h; simp at h
      | some vals =>
          rw [hc] at h
          simp only [Option.map_some', Option.some.injEq, Except.ok.injEq] at h
          rw [← h]
          exact captureValues_range rs vals hc

/-- Witness for C9: responses 4, 5, 3, 4, 5 with a validator that accepts. -/
theorem captured_values_in_range_witness :
    (1 ≤ resW.values.environmental_importance ∧ resW.values.environmental_importance ≤ 5)
    ∧ (1 ≤ resW.values.labor_practices_importance ∧ resW.values.labor_practices_importance ≤ 5)
    ∧ (1 ≤ resW.values.local_sourcing_preference ∧ resW.values.local_sourcing_preference ≤ 5)
    ∧ (1 ≤ resW.values.animal_welfare_importance ∧ resW.values.animal_welfare_importance ≤ 5)
    ∧ (1 ≤ resW.values.transparency_importance ∧ resW.values.transparency_importance ≤ 5) :=
  captured_values_in_range (fun _ _ => ⟨true, "", some ⟨"bob"⟩⟩) "bob" "tok"
    [some 4, some 5, some 3, some 4, some 5] resW rfl

/-- Helper for C10: a weights entry whose key is not a factor name makes the
weighted sum fail. -/
theorem weightedSum_none_of_unknown_key (p : ProductData) :
    ∀ (w : List (String × ℚ)) (k : String) (x : ℚ), factorOfName k = none →
      (k, x) ∈ w → weightedSum p w = none := by
  intro w
  induction w with
  | nil => intro k x _ hm; simp at hm
  | cons kv rest ih =>
      intro k x hk hm
      simp only [weightedSum]
      rcases List.mem_cons.mp hm with heq | hmem
      · rw [← heq]
        simp [hk]
      · cases hf : factorOfName kv.1 with
        | none => rfl
        | some g => rw [ih k x hk hmem]; rfl

/-- Helper for C10: if every weights key is a factor name the weighted sum
succeeds. -/
theorem weightedSum_isSome (p : ProductData) :
    ∀ w : List (String × ℚ), (∀ kv ∈ w, (factorOfName kv.1).isSome) →
      (weightedSum p w).isSome := by
  intro w
  induction w with
  | nil => intro _; simp [weightedSum]
  | cons kv rest ih =>
      intro hall
      have h1 := hall kv (List.mem_cons_self _ _)
      have h2 := ih fun e he => hall e (List.mem_cons_of_mem _ he)
      simp only [weightedSum]
      cases hf : factorOfName kv.1 with
      | none => rw [hf] at h1; simp at h1
      | some g =>
          cases hrs : weightedSum p rest with
          | none => rw [hrs] at h2; simp at h2
          | some s => simp

/-- C10: the overall score is summed exactly over the entries of the weights
mapping — the empty mapping sums to 0 and appending an entry for factor `f`
with weight `x` adds exactly `componentScore f * x`, so an omitted factor
contributes nothing — and a weights key that is not one of the five factor
names makes `score_ethical_factors` fail (`none`) rather than return a
result, while all-known keys guarantee a result. -/
theorem weights_keys_control_overall (p : ProductData) (uv : UserValues)
    (w : List (String × ℚ)) :
    weightedSum p [] = some 0
    ∧ (∀ f x, weightedSum p (w ++ [(Factor.name f, x)])
        = (weightedSum p w).map fun s => s + componentScore p f * x)
    ∧ (∀ k x, factorOfName k = none → (k, x) ∈ w →
        score_ethical_factors p uv (some w) = none)
    ∧ ((∀ kv ∈ w, (factorOfName kv.1).isSome) → (weightedSum p w).isSome) := by
  refine ⟨rfl, ?_, ?_, weightedSum_isSome p w⟩
  · intro f x
    induction w with
    | nil =>
        simp only [List.nil_append, weightedSum, factorOfName_name, Option.map_some']
        norm_num
    | cons kv rest ih =>
        simp only [List.cons_append, weightedSum]
        cases hf : factorOfName kv.1 with
        | none => simp
        | some g =>
            dsimp only
            have e : weightedSum p (rest.append [(f.name, x)])
                = weightedSum p (rest ++ [(f.name, x)]) := rfl
            rw [e, ih]
            cases hr : weightedSum p rest with
            | none => simp
            | some s =>
                simp only [Option.map_some']
                ring_nf
  · intro k x hk hm
    simp only [score_ethical_factors, Option.getD]
    rw [weightedSum_none_of_unknown_key p w k x hk hm]
    rfl

/-- Witness for C10: concrete weight lists, including one with the unknown
key `"bogus"` which makes the call fail. -/
theorem weights_keys_control_overall_witness :
    weightedSum pB [] = some 0
    ∧ weightedSum pB ([("environmental", (1:ℚ))] ++ [(Factor.name .labor, (2:ℚ))])
        = (weightedSum pB [("environmental", (1:ℚ))]).map
            (fun s => s + componentScore pB .labor * 2)
    ∧ score_ethical_factors pB uvB (some [("environmental", 1), ("bogus", 1)]) = none
    ∧ (weightedSum pB [("environmental", (1:ℚ))]).isSome := by
  obtain ⟨h1, h2, _, h4⟩ := weights_keys_control_overall pB uvB [("environmental", (1:ℚ))]
  obtain ⟨_, _, h3, _⟩ := weights_keys_control_overall pB uvB
    [("environmental", (1:ℚ)), ("bogus", (1:ℚ))]
  refine ⟨h1, h2 .labor 2, h3 "bogus" 1 (by decide)
    (List.mem_cons_of_mem _ (List.mem_cons_self _ _)), h4 ?_⟩
  intro kv h
  fin_cases h
  decide

/-- Witness for C3's amended theorem at the Scenario B input: the
unconditional upper bounds, and — since that input has a non-negative
`transparency_score` and the default weights — the lower bounds too. -/
theorem scores_in_range_witness :
    (∀ kv ∈ scoreB.component_scores, kv.2 ≤ 10)
    ∧ scoreB.overall_score ≤ 10
    ∧ ((∀ kv ∈ scoreB.component_scores, 0 ≤ kv.2) ∧ 0 ≤ scoreB.overall_score) := by
  obtain ⟨h1, h2, h3⟩ := scores_in_range_of_nonneg_inputs pB uvB none scoreB pB_score
  refine ⟨h1, h2, h3 (by norm_num [pB]) ?_⟩
  intro kv h
  rw [show (none : Option (List (String × ℚ))).getD defaultWeights = defaultWeights
    from rfl, defaultWeights] at h
  fin_cases h <;> norm_num

end Hushh
